import Mathlib

/-!
Shallow embedding of `src/rbac_pinecone_demo.py`: an RBAC authorization
engine (role → permission-set registry) gating an e-commerce order facade,
an inventory facade and vector-store facades.  Python dicts become
association lists with dict-assignment semantics, Python sets become
`Finset String`, mutation becomes explicit state passing, external
collaborators (embedding encoder, vector store) become function parameters
together with an explicit trace of the calls issued to them, and fallible
code (Python `KeyError` on indexing) returns `Option`.
-/

/-- Python dict lookup `d.get(k)` / `d[k]` on an association list. -/
def dictGet {K V : Type} [DecidableEq K] : List (K × V) → K → Option V
  | [], _ => none
  | (k', v) :: rest, k => if k' = k then some v else dictGet rest k

/-- Python dict item assignment `d[k] = v`: replaces the value at the first
occurrence of `k`, else appends a new binding (Python keeps the original
key position and overwrites the value). -/
def dictSet {K V : Type} [DecidableEq K] : List (K × V) → K → V → List (K × V)
  | [], k, v => [(k, v)]
  | (k', v') :: rest, k, v =>
      if k' = k then (k, v) :: rest else (k', v') :: dictSet rest k v

/-- Python dict comprehension `{key(x): x for x in xs}` (later duplicate keys
overwrite earlier values, first position is kept). -/
def dictOfKeyed {V : Type} (key : V → Int) (xs : List V) : List (Int × V) :=
  xs.foldl (fun d x => dictSet d (key x) x) []

/-- `@dataclass User` from the source. -/
structure User where
  id : Int
  username : String
  role : String
  api_key : Option String
deriving DecidableEq, Repr

/-- `@dataclass Product` from the source (price as an exact rational;
the code never computes with it). -/
structure Product where
  id : Int
  name : String
  price : ℚ
  stock : Int
  description : String
  vector_id : Option String
deriving DecidableEq, Repr

/-- `@dataclass Order` from the source (`created_at` as an opaque
timestamp; the code never inspects it). -/
structure Order where
  id : Int
  user_id : Int
  products : List Int
  total : ℚ
  status : String
  created_at : Nat
deriving DecidableEq, Repr

/-- `RBACSystem`: owns the mutable role → permission-set dict. -/
structure RBACSystem where
  role_permissions : List (String × Finset String)
deriving DecidableEq

/-- `RBACSystem.has_permission`: `False` when `user.role` is not a key of
`role_permissions`, else membership in the set of that role. -/
def has_permission (rbac : RBACSystem) (user : User) (permission : String) : Bool :=
  match dictGet rbac.role_permissions user.role with
  | none => false
  | some s => decide (permission ∈ s)

/-- `RBACSystem.get_user_permissions`:
`self.role_permissions.get(user.role, set())`. -/
def get_user_permissions (rbac : RBACSystem) (user : User) : Finset String :=
  (dictGet rbac.role_permissions user.role).getD ∅

/-- Permission set of a role name directly (the same
`role_permissions.get(role, set())` read, keyed by role). -/
def permissionsOf (rbac : RBACSystem) (role : String) : Finset String :=
  (dictGet rbac.role_permissions role).getD ∅

/-- `rbac.role_permissions[role] = s`: wholesale replacement of the
permission set of a role (the source does this for `senior_sales_rep` and
`senior_data_scientist`). -/
def defineRole (rbac : RBACSystem) (role : String) (s : Finset String) : RBACSystem :=
  ⟨dictSet rbac.role_permissions role s⟩

/-- `bob.role = "senior_sales_rep"`: role promotion mutates the `User`. -/
def setRole (user : User) (role : String) : User :=
  { user with role := role }

/-- Modelled from the spec: the source has no named `grant` operation (it
only replaces whole sets by dict assignment), so this follows the spec:
`grant(role, permission)` adds one permission to an existing (or newly
created) role, a no-op if already present (set semantics). -/
def grant (rbac : RBACSystem) (role : String) (permission : String) : RBACSystem :=
  defineRole rbac role (insert permission (permissionsOf rbac role))

/-- The `"customer"` permission set of `RBACSystem.__init__`. -/
def customerPerms : Finset String :=
  {"view_products", "view_own_orders", "place_order", "vector_search_basic"}

/-- The `"sales_rep"` permission set of `RBACSystem.__init__`. -/
def salesRepPerms : Finset String :=
  {"view_products", "view_all_orders", "update_order_status",
   "view_customer_info", "vector_search_basic", "vector_search_advanced"}

/-- The `"data_scientist"` permission set of `RBACSystem.__init__`. -/
def dataScientistPerms : Finset String :=
  {"view_products", "vector_search_basic", "vector_search_advanced",
   "vector_create", "vector_delete", "vector_update"}

/-- The `"admin"` permission set of `RBACSystem.__init__`. -/
def adminPerms : Finset String :=
  {"view_products", "update_product_stock", "view_all_orders",
   "update_order_status", "view_customer_info", "manage_users",
   "place_order", "vector_search_basic", "vector_search_advanced",
   "vector_create", "vector_delete", "vector_update", "vector_manage_index"}

/-- `RBACSystem.__init__`: the four initial roles. -/
def initRBAC : RBACSystem :=
  ⟨[("customer", customerPerms), ("sales_rep", salesRepPerms),
    ("data_scientist", dataScientistPerms), ("admin", adminPerms)]⟩

/-- The order dict returned by `view_orders`:
`{"id": ..., "total": ..., "status": ..., "products": [names]}`. -/
structure OrderInfo where
  id : Int
  total : ℚ
  status : String
  products : List String
deriving DecidableEq, Repr

/-- One element of the list `view_orders` returns: either a bare message
string (denial / not-found) or an order dict. -/
inductive Entry where
  | msg : String → Entry
  | info : OrderInfo → Entry
deriving DecidableEq, Repr

/-- `ECommerceSystem.__init__`: dicts keyed by id (the external
`vector_index` collaborator is passed separately to `vector_search`). -/
structure ECommerceSystem where
  rbac : RBACSystem
  users : List (Int × User)
  products : List (Int × Product)
  orders : List (Int × Order)

/-- The order dict built by `view_orders` for one order: `none` models the
`KeyError` Python raises when an order references a missing product id. -/
def renderOrder (s : ECommerceSystem) (o : Order) : Option Entry :=
  (o.products.mapM (fun pid => dictGet s.products pid)).map
    (fun ps => Entry.info ⟨o.id, o.total, o.status, ps.map Product.name⟩)

/-- `ECommerceSystem.view_orders(user, order_id=None)`. -/
def view_orders (s : ECommerceSystem) (user : User) (order_id : Option Int) :
    Option (List Entry) :=
  if !(has_permission s.rbac user "view_all_orders" ||
       has_permission s.rbac user "view_own_orders") then
    some [Entry.msg "Access Denied: No permission to view orders"]
  else
    match order_id with
    | some oid =>
        match dictGet s.orders oid with
        | none => some [Entry.msg "Order not found"]
        | some order =>
            if !(has_permission s.rbac user "view_all_orders") &&
               (order.user_id != user.id) then
              some [Entry.msg "Access Denied: Can only view your own orders"]
            else
              (renderOrder s order).map (fun e => [e])
    | none =>
        let orders_to_show :=
          if has_permission s.rbac user "view_all_orders" then
            s.orders.map Prod.snd
          else
            (s.orders.map Prod.snd).filter (fun o => o.user_id == user.id)
        orders_to_show.mapM (fun o => renderOrder s o)

/-- Stand-in for the opaque numeric embedding vector `model.encode` returns;
the core never inspects its contents. -/
abbrev Embedding := List Int

/-- Stand-in for the opaque metadata dicts handed to the vector store. -/
abbrev Metadata := List (String × String)

/-- One call issued to an external collaborator (embedding encoder or
vector store), recorded in order. -/
inductive ExtCall where
  | encode : String → ExtCall
  | query : Embedding → Nat → ExtCall
  | upsert : String → Embedding → Metadata → ExtCall
deriving DecidableEq, Repr

/-- One match returned by `vector_index.query` (id, score and the metadata
fields the code reads; score as an exact rational, never computed with). -/
structure MatchRec where
  id : String
  score : ℚ
  name : String
  price : ℚ
  description : String
deriving DecidableEq, Repr

/-- One formatted result dict built by `vector_search`. -/
structure FormattedResult where
  product_name : String
  price : ℚ
  description : String
  similarity_score : ℚ
  vector_id : String
deriving DecidableEq, Repr

/-- One element of the list `vector_search` returns: a bare message string
(denial / collaborator error) or a formatted result dict. -/
inductive SearchEntry where
  | msg : String → SearchEntry
  | res : FormattedResult → SearchEntry
deriving DecidableEq, Repr

/-- `ECommerceSystem.vector_search(user, query, top_k=3)`.  The external
collaborators are parameters (`encode` for `model.encode`, `queryIdx` for
`self.vector_index.query`); the second component is the trace of
collaborator calls the method issues. -/
def vector_search (rbac : RBACSystem) (encode : String → Embedding)
    (queryIdx : Embedding → Nat → List MatchRec) (user : User)
    (q : String) (top_k : Nat) : List SearchEntry × List ExtCall :=
  if !(has_permission rbac user "vector_search_basic" ||
       has_permission rbac user "vector_search_advanced") then
    ([SearchEntry.msg "Access Denied: No permission to perform vector search"], [])
  else
    let query_embedding := encode q
    let results := queryIdx query_embedding top_k
    let calls := [ExtCall.encode q, ExtCall.query query_embedding top_k]
    if results.isEmpty then
      ([], calls)
    else
      (results.map (fun m => SearchEntry.res
        ⟨m.name, m.price, m.description, m.score, m.id⟩), calls)

/-- `VectorManagement.create_vector(user, data, metadata)`.  `genId` stands
for the fresh `str(uuid4())`; the second component is the trace of
collaborator calls (`model.encode`, `vector_index.upsert`). -/
def create_vector (rbac : RBACSystem) (encode : String → Embedding)
    (genId : String) (user : User) (data : String) (metadata : Metadata) :
    String × List ExtCall :=
  if !(has_permission rbac user "vector_create") then
    ("Access Denied: No permission to create vectors", [])
  else
    let embedding := encode data
    ("Vector created successfully with ID: " ++ genId,
     [ExtCall.encode data, ExtCall.upsert genId embedding metadata])

/-- `InventoryManagement.__init__`: the rbac system and a product dict. -/
structure InventoryManagement where
  rbac : RBACSystem
  products : List (Int × Product)
deriving DecidableEq

/-- `InventoryManagement.update_stock(user, product_id, new_stock)`:
returns the message string and the post-state. -/
def update_stock (inv : InventoryManagement) (user : User)
    (product_id : Int) (new_stock : Int) : String × InventoryManagement :=
  if !(has_permission inv.rbac user "update_product_stock") then
    ("Access Denied: No permission to update stock", inv)
  else
    match dictGet inv.products product_id with
    | none => ("Product not found", inv)
    | some p =>
        ("Stock updated successfully for " ++ p.name,
         { inv with products :=
             dictSet inv.products product_id { p with stock := new_stock } })

-- Demo data from section 2 of the source, used as concrete witnesses.

/-- The demo `users` list. -/
def demoUsers : List User :=
  [⟨1, "alice", "customer", none⟩, ⟨2, "bob", "sales_rep", none⟩,
   ⟨3, "carol", "data_scientist", none⟩, ⟨4, "david", "admin", none⟩]

/-- The demo `products` list (descriptions elided to their names; the
authorization core never reads them). -/
def demoProducts : List Product :=
  [⟨1, "Gaming Laptop", mkRat 99999 100, 50, "High-performance gaming laptop", none⟩,
   ⟨2, "Smartphone Pro", mkRat 59999 100, 100, "Latest flagship smartphone", none⟩,
   ⟨3, "Wireless Headphones", mkRat 9999 100, 200, "Premium wireless headphones", none⟩]

/-- The demo `orders` list (timestamps as 0; never inspected). -/
def demoOrders : List Order :=
  [⟨1, 1, [1, 3], mkRat 109998 100, "pending", 0⟩,
   ⟨2, 1, [2], mkRat 59999 100, "completed", 0⟩]

/-- `system = ECommerceSystem(rbac, users, products, orders)`. -/
def demoSystem : ECommerceSystem :=
  ⟨initRBAC, dictOfKeyed User.id demoUsers,
   dictOfKeyed Product.id demoProducts, dictOfKeyed Order.id demoOrders⟩

/-- `inventory = InventoryManagement(rbac, products)`. -/
def demoInventory : InventoryManagement :=
  ⟨initRBAC, dictOfKeyed Product.id demoProducts⟩

-- Basic dict lemmas

theorem dictGet_dictSet_self {K V : Type} [DecidableEq K]
    (d : List (K × V)) (k : K) (v : V) :
    dictGet (dictSet d k v) k = some v := by
  induction d with
  | nil => simp [dictGet, dictSet]
  | cons hd tl ih =>
      obtain ⟨k', v'⟩ := hd
      by_cases h : k' = k
      · simp [dictGet, dictSet, h]
      · simp [dictGet, dictSet, h, ih]

theorem dictGet_dictSet_ne {K V : Type} [DecidableEq K]
    (d : List (K × V)) {k k' : K} (v : V) (h : k' ≠ k) :
    dictGet (dictSet d k v) k' = dictGet d k' := by
  have h2 : k ≠ k' := Ne.symm h
  induction d with
  | nil => simp [dictGet, dictSet, h2]
  | cons hd tl ih =>
      obtain ⟨k₀, v₀⟩ := hd
      by_cases hk : k₀ = k
      · subst hk
        simp [dictGet, dictSet, h2]
      · simp [dictGet, dictSet, hk, ih]

theorem permissionsOf_defineRole_self (rbac : RBACSystem) (role : String)
    (s : Finset String) : permissionsOf (defineRole rbac role s) role = s := by
  simp [permissionsOf, defineRole, dictGet_dictSet_self]

theorem permissionsOf_grant (rbac : RBACSystem) (role permission : String) :
    permissionsOf (grant rbac role permission) role
      = insert permission (permissionsOf rbac role) := by
  simp [grant, permissionsOf_defineRole_self]

-- Claim theorems

/-- C1: `has_permission(user, permission)` returns true if and only if
`user.role` is a key of the role → permission-set mapping and the
permission is a member of the set of that role; for a role name not in
the mapping, `get_user_permissions` returns the empty set and
`has_permission` returns false for every permission, and both operations
are total (they signal no error). -/
theorem C1_has_permission_membership (rbac : RBACSystem) (u : User) (p : String) :
    (has_permission rbac u p = true ↔
      ∃ s, dictGet rbac.role_permissions u.role = some s ∧ p ∈ s)
    ∧ (dictGet rbac.role_permissions u.role = none →
        get_user_permissions rbac u = ∅ ∧ has_permission rbac u p = false) := by
  constructor
  · cases h : dictGet rbac.role_permissions u.role with
    | none => simp [has_permission, h]
    | some s => simp [has_permission, h]
  · intro h
    simp [get_user_permissions, has_permission, h]

/-- C1 witness: the unknown role `"nobody"` yields the empty permission
set and denial of `"view_products"`. -/
theorem C1_has_permission_membership_witness :
    get_user_permissions initRBAC ⟨9, "ghost", "nobody", none⟩ = ∅ ∧
    has_permission initRBAC ⟨9, "ghost", "nobody", none⟩ "view_products" = false :=
  (C1_has_permission_membership initRBAC ⟨9, "ghost", "nobody", none⟩
    "view_products").2 (by decide)

/-- C4: defining a role twice leaves exactly the second set: after
`role_permissions[R] = S1` and then `role_permissions[R] = S2`,
`permissionsOf(R)` is exactly `S2` (the role maps to the single set `S2`,
and no permission of `S1` outside `S2` survives: no merge occurs). -/
theorem C4_define_replaces (rbac : RBACSystem) (r : String)
    (s1 s2 : Finset String) :
    permissionsOf (defineRole (defineRole rbac r s1) r s2) r = s2
    ∧ dictGet (defineRole (defineRole rbac r s1) r s2).role_permissions r = some s2
    ∧ ∀ p, p ∈ s1 → p ∉ s2 →
        p ∉ permissionsOf (defineRole (defineRole rbac r s1) r s2) r := by
  refine ⟨permissionsOf_defineRole_self _ r s2, ?_, ?_⟩
  · simp [defineRole, dictGet_dictSet_self]
  · intro p _ hp2
    rw [permissionsOf_defineRole_self]
    exact hp2

/-- C4 witness: redefining `"temp"` from two permissions down to one
leaves exactly the one, and the dropped permission does not survive. -/
theorem C4_define_replaces_witness :
    permissionsOf (defineRole (defineRole initRBAC "temp"
        {"view_products", "place_order"}) "temp" {"view_products"}) "temp"
      = {"view_products"}
    ∧ "place_order" ∉ permissionsOf (defineRole (defineRole initRBAC "temp"
        {"view_products", "place_order"}) "temp" {"view_products"}) "temp" := by
  have h := C4_define_replaces initRBAC "temp"
    {"view_products", "place_order"} {"view_products"}
  exact ⟨h.1, h.2.2 "place_order" (by decide) (by decide)⟩

/-- C9: `grant` is idempotent: granting the same permission twice yields
the same permission set as granting it once, and granting a permission
the role already holds leaves the set unchanged. -/
theorem C9_grant_idempotent (rbac : RBACSystem) (r p : String) :
    permissionsOf (grant (grant rbac r p) r p) r = permissionsOf (grant rbac r p) r
    ∧ (p ∈ permissionsOf rbac r →
        permissionsOf (grant rbac r p) r = permissionsOf rbac r) := by
  constructor
  · rw [permissionsOf_grant, permissionsOf_grant, Finset.insert_idem]
  · intro h
    rw [permissionsOf_grant, Finset.insert_eq_self.mpr h]

/-- C9 witness: granting `"view_products"` to `"customer"`, which already
holds it, leaves the customer set unchanged; a second grant changes
nothing further. -/
theorem C9_grant_idempotent_witness :
    permissionsOf (grant (grant initRBAC "customer" "view_products")
        "customer" "view_products") "customer"
      = permissionsOf (grant initRBAC "customer" "view_products") "customer"
    ∧ permissionsOf (grant initRBAC "customer" "view_products") "customer"
      = permissionsOf initRBAC "customer" := by
  have h := C9_grant_idempotent initRBAC "customer" "view_products"
  exact ⟨h.1, h.2 (by decide)⟩

/-- C5: role promotion is immediately and only prospectively effective:
if a principal under the old role is denied permission `X` and is
reassigned to a defined role whose set contains `X`, the very next
`has_permission` call returns true; the decision for the pre-promotion
principal value is unchanged (false), and every check re-reads the
current role of the principal (any principal currently under the new
role is authorized, with no caching of earlier decisions). -/
theorem C5_promotion_immediate (rbac : RBACSystem) (u : User)
    (newRole X : String) (s : Finset String)
    (hold : has_permission rbac u X = false)
    (hdef : dictGet rbac.role_permissions newRole = some s)
    (hX : X ∈ s) :
    has_permission rbac (setRole u newRole) X = true
    ∧ has_permission rbac u X = false
    ∧ ∀ w : User, w.role = newRole → has_permission rbac w X = true := by
  refine ⟨?_, hold, ?_⟩
  · simp [has_permission, setRole, hdef, hX]
  · intro w hw
    simp [has_permission, hw, hdef, hX]

/-- C5 witness: bob as `"customer"` lacks `"vector_manage_index"`; after
reassignment to `"admin"` the very next check grants it, and the
pre-promotion decision is still a denial. -/
theorem C5_promotion_immediate_witness :
    has_permission initRBAC (setRole ⟨2, "bob", "customer", none⟩ "admin")
      "vector_manage_index" = true
    ∧ has_permission initRBAC ⟨2, "bob", "customer", none⟩
      "vector_manage_index" = false := by
  have h := C5_promotion_immediate initRBAC ⟨2, "bob", "customer", none⟩
    "admin" "vector_manage_index" adminPerms (by decide) (by decide) (by decide)
  exact ⟨h.1, h.2.1⟩

/-- C2: single-order lookup of an existing order: with `view_all_orders`
the order dict is returned regardless of owner; with `view_own_orders`
and matching owner the order dict is returned; with `view_own_orders`
but a different owner and no `view_all_orders`, the result is the
ownership denial, not the order. -/
theorem C2_single_order_lookup (s : ECommerceSystem) (u : User) (oid : Int)
    (order : Order) (ps : List Product)
    (hord : dictGet s.orders oid = some order)
    (hps : order.products.mapM (fun pid => dictGet s.products pid) = some ps) :
    (has_permission s.rbac u "view_all_orders" = true →
      view_orders s u (some oid) =
        some [Entry.info ⟨order.id, order.total, order.status, ps.map Product.name⟩])
    ∧ (has_permission s.rbac u "view_all_orders" = false →
       has_permission s.rbac u "view_own_orders" = true →
       order.user_id = u.id →
       view_orders s u (some oid) =
         some [Entry.info ⟨order.id, order.total, order.status, ps.map Product.name⟩])
    ∧ (has_permission s.rbac u "view_all_orders" = false →
       has_permission s.rbac u "view_own_orders" = true →
       order.user_id ≠ u.id →
       view_orders s u (some oid) =
         some [Entry.msg "Access Denied: Can only view your own orders"]) := by
  have hro : renderOrder s order =
      some (Entry.info ⟨order.id, order.total, order.status, ps.map Product.name⟩) := by
    unfold renderOrder
    rw [hps]
    rfl
  refine ⟨?_, ?_, ?_⟩
  · intro hall
    simp [view_orders, hall, hord, hro]
  · intro hall hown heq
    simp [view_orders, hall, hown, hord, heq, hro]
  · intro hall hown hne
    simp [view_orders, hall, hown, hord, hne]

/-- C2 witness: alice (customer, `view_own_orders` only) sees her own
order 1; eve (customer, different id) is denied on the same order. -/
theorem C2_single_order_lookup_witness :
    view_orders demoSystem ⟨1, "alice", "customer", none⟩ (some 1) =
      some [Entry.info ⟨1, mkRat 109998 100, "pending",
        ["Gaming Laptop", "Wireless Headphones"]⟩]
    ∧ view_orders demoSystem ⟨5, "eve", "customer", none⟩ (some 1) =
      some [Entry.msg "Access Denied: Can only view your own orders"] := by
  have h1 := C2_single_order_lookup demoSystem ⟨1, "alice", "customer", none⟩ 1
    ⟨1, 1, [1, 3], mkRat 109998 100, "pending", 0⟩
    [⟨1, "Gaming Laptop", mkRat 99999 100, 50, "High-performance gaming laptop", none⟩,
     ⟨3, "Wireless Headphones", mkRat 9999 100, 200, "Premium wireless headphones", none⟩]
    (by decide) (by decide)
  have h2 := C2_single_order_lookup demoSystem ⟨5, "eve", "customer", none⟩ 1
    ⟨1, 1, [1, 3], mkRat 109998 100, "pending", 0⟩
    [⟨1, "Gaming Laptop", mkRat 99999 100, 50, "High-performance gaming laptop", none⟩,
     ⟨3, "Wireless Headphones", mkRat 9999 100, 200, "Premium wireless headphones", none⟩]
    (by decide) (by decide)
  exact ⟨h1.2.1 (by decide) (by decide) (by decide),
         h2.2.2 (by decide) (by decide) (by decide)⟩

/-- C7: for a caller past the coarse gate (holding `view_all_orders` or
`view_own_orders`), an absent order id yields the not-found result, an
existing order owned by another principal (caller without
`view_all_orders`) yields the ownership-denial result, and the two
result values are distinct. -/
theorem C7_notfound_distinct_from_forbidden (s : ECommerceSystem) (u : User)
    (oid : Int)
    (hgate : has_permission s.rbac u "view_all_orders" = true ∨
             has_permission s.rbac u "view_own_orders" = true) :
    (dictGet s.orders oid = none →
      view_orders s u (some oid) = some [Entry.msg "Order not found"])
    ∧ (∀ order : Order, dictGet s.orders oid = some order →
        has_permission s.rbac u "view_all_orders" = false →
        order.user_id ≠ u.id →
        view_orders s u (some oid) =
          some [Entry.msg "Access Denied: Can only view your own orders"])
    ∧ ([Entry.msg "Order not found"] ≠
       [Entry.msg "Access Denied: Can only view your own orders"]) := by
  refine ⟨?_, ?_, by decide⟩
  · intro habs
    rcases hgate with h | h <;> simp [view_orders, h, habs]
  · intro order hord hall hne
    rcases hgate with h | h
    · rw [h] at hall
      exact absurd hall (by simp)
    · simp [view_orders, hall, h, hord, hne]

/-- C7 witness: frank (customer, `view_own_orders` only) gets not-found
for absent order 99 and the distinct ownership denial for order 1, which
alice owns. -/
theorem C7_notfound_distinct_from_forbidden_witness :
    view_orders demoSystem ⟨6, "frank", "customer", none⟩ (some 99) =
      some [Entry.msg "Order not found"]
    ∧ view_orders demoSystem ⟨6, "frank", "customer", none⟩ (some 1) =
      some [Entry.msg "Access Denied: Can only view your own orders"] := by
  have h1 := C7_notfound_distinct_from_forbidden demoSystem
    ⟨6, "frank", "customer", none⟩ 99 (Or.inr (by decide))
  have h2 := C7_notfound_distinct_from_forbidden demoSystem
    ⟨6, "frank", "customer", none⟩ 1 (Or.inr (by decide))
  exact ⟨h1.1 (by decide),
         h2.2.1 ⟨1, 1, [1, 3], mkRat 109998 100, "pending", 0⟩
           (by decide) (by decide) (by decide)⟩

/-- C10: the not-found check precedes the ownership check: a caller
holding `view_own_orders` (even without `view_all_orders`) who requests
an order id absent from the store gets the not-found result, never an
ownership denial, so existence of an order id is revealed to any caller
past the coarse gate. -/
theorem C10_notfound_precedes_ownership (s : ECommerceSystem) (u : User)
    (oid : Int)
    (hown : has_permission s.rbac u "view_own_orders" = true)
    (habs : dictGet s.orders oid = none) :
    view_orders s u (some oid) = some [Entry.msg "Order not found"] := by
  by_cases hall : has_permission s.rbac u "view_all_orders" = true
  · simp [view_orders, hall, habs]
  · rw [Bool.not_eq_true] at hall
    simp [view_orders, hall, hown, habs]

/-- C10 witness: alice (customer, no `view_all_orders`) requesting absent
order 42 gets the not-found result. -/
theorem C10_notfound_precedes_ownership_witness :
    view_orders demoSystem ⟨1, "alice", "customer", none⟩ (some 42) =
      some [Entry.msg "Order not found"] :=
  C10_notfound_precedes_ownership demoSystem ⟨1, "alice", "customer", none⟩ 42
    (by decide) (by decide)

/-- C3: either-of semantics for similarity search: `vector_search`
returns the authorization-denial result exactly when the role of the
user holds neither `vector_search_basic` nor `vector_search_advanced`;
holding only `vector_search_basic` (or any set with one of the two)
passes the gate, whatever other permissions are held. -/
theorem C3_vector_search_either_of (rbac : RBACSystem)
    (encode : String → Embedding) (queryIdx : Embedding → Nat → List MatchRec)
    (u : User) (q : String) (k : Nat) :
    (vector_search rbac encode queryIdx u q k).fst =
      [SearchEntry.msg "Access Denied: No permission to perform vector search"]
    ↔ (has_permission rbac u "vector_search_basic" = false ∧
       has_permission rbac u "vector_search_advanced" = false) := by
  cases hb : has_permission rbac u "vector_search_basic" with
  | false =>
      cases ha : has_permission rbac u "vector_search_advanced" with
      | false => simp [vector_search, hb, ha]
      | true =>
          cases hq : queryIdx (encode q) k with
          | nil => simp [vector_search, hb, ha, hq]
          | cons m ms => simp [vector_search, hb, ha, hq]
  | true =>
      cases hq : queryIdx (encode q) k with
      | nil => simp [vector_search, hb, hq]
      | cons m ms => simp [vector_search, hb, hq]

/-- C6: no external collaborator call on a denied request: when the role
of the user lacks both search permissions, `vector_search` returns the
denial value with an empty collaborator-call trace (no `model.encode`,
no `vector_index.query`); when it lacks `vector_create`, `create_vector`
returns the denial value with an empty trace (no `model.encode`, no
`vector_index.upsert`); both denials are ordinary return values. -/
theorem C6_denied_request_no_collaborator_call (rbac : RBACSystem)
    (encode : String → Embedding) (queryIdx : Embedding → Nat → List MatchRec)
    (genId : String) (q : String) (k : Nat) (data : String) (md : Metadata) :
    (∀ u : User, has_permission rbac u "vector_search_basic" = false →
      has_permission rbac u "vector_search_advanced" = false →
      vector_search rbac encode queryIdx u q k =
        ([SearchEntry.msg "Access Denied: No permission to perform vector search"], []))
    ∧ (∀ u : User, has_permission rbac u "vector_create" = false →
      create_vector rbac encode genId u data md =
        ("Access Denied: No permission to create vectors", [])) := by
  constructor
  · intro u hb ha
    simp [vector_search, hb, ha]
  · intro u hc
    simp [create_vector, hc]

/-- C6 witness: a user with an unknown role is denied the search with no
collaborator call, and alice (customer, no `vector_create`) is denied
vector creation with no collaborator call. -/
theorem C6_denied_request_no_collaborator_call_witness :
    vector_search initRBAC (fun _ => [0]) (fun _ _ => [])
      ⟨9, "ghost", "nobody", none⟩ "laptop" 3 =
      ([SearchEntry.msg "Access Denied: No permission to perform vector search"], [])
    ∧ create_vector initRBAC (fun _ => [0]) "vid"
      ⟨1, "alice", "customer", none⟩ "New gaming monitor" [("name", "Gaming Monitor")] =
      ("Access Denied: No permission to create vectors", []) := by
  have h := C6_denied_request_no_collaborator_call initRBAC (fun _ => [0])
    (fun _ _ => []) "vid" "laptop" 3 "New gaming monitor" [("name", "Gaming Monitor")]
  exact ⟨h.1 ⟨9, "ghost", "nobody", none⟩ (by decide) (by decide),
         h.2 ⟨1, "alice", "customer", none⟩ (by decide)⟩

/-- C8: `update_stock` requires exactly `update_product_stock` and is
atomic on failure: without the permission it returns the denial and
leaves the store untouched; with the permission but an absent product id
it returns not-found and leaves the store untouched; with the permission
and an existing product it reports success for that product, sets the
stock of exactly that product to exactly the new value, and leaves every
other product binding unchanged. -/
theorem C8_update_stock_exact (inv : InventoryManagement) (u : User)
    (pid ns : Int) :
    (has_permission inv.rbac u "update_product_stock" = false →
      update_stock inv u pid ns =
        ("Access Denied: No permission to update stock", inv))
    ∧ (has_permission inv.rbac u "update_product_stock" = true →
       dictGet inv.products pid = none →
       update_stock inv u pid ns = ("Product not found", inv))
    ∧ (∀ p : Product, has_permission inv.rbac u "update_product_stock" = true →
        dictGet inv.products pid = some p →
        (update_stock inv u pid ns).fst = "Stock updated successfully for " ++ p.name
        ∧ dictGet (update_stock inv u pid ns).snd.products pid =
            some { p with stock := ns }
        ∧ ∀ q : Int, q ≠ pid →
            dictGet (update_stock inv u pid ns).snd.products q =
              dictGet inv.products q) := by
  refine ⟨?_, ?_, ?_⟩
  · intro h
    simp [update_stock, h]
  · intro h hn
    simp [update_stock, h, hn]
  · intro p h hp
    refine ⟨?_, ?_, ?_⟩
    · simp [update_stock, h, hp]
    · simp [update_stock, h, hp, dictGet_dictSet_self]
    · intro q hq
      simp [update_stock, h, hp, dictGet_dictSet_ne _ _ hq]

/-- C8 witness: alice (customer) is denied with the store unchanged;
david (admin) updates product 1 to stock 45, product 2 stays bound as
before. -/
theorem C8_update_stock_exact_witness :
    update_stock demoInventory ⟨1, "alice", "customer", none⟩ 1 45 =
      ("Access Denied: No permission to update stock", demoInventory)
    ∧ (update_stock demoInventory ⟨4, "david", "admin", none⟩ 1 45).fst =
      "Stock updated successfully for Gaming Laptop"
    ∧ dictGet (update_stock demoInventory ⟨4, "david", "admin", none⟩ 1 45).snd.products 2 =
      dictGet demoInventory.products 2 := by
  have ha := C8_update_stock_exact demoInventory ⟨1, "alice", "customer", none⟩ 1 45
  have hd := C8_update_stock_exact demoInventory ⟨4, "david", "admin", none⟩ 1 45
  have hd3 := hd.2.2
    ⟨1, "Gaming Laptop", mkRat 99999 100, 50, "High-performance gaming laptop", none⟩
    (by decide) (by decide)
  exact ⟨ha.1 (by decide), hd3.1, hd3.2.2 2 (by decide)⟩
